import Mathlib

/-
  Verification of the read server of the creek disk-streaming audio reader
  (src/read/server.rs).  The server owns a decoder, receives requests over a
  bounded SPSC queue, fills reusable buffers and returns them as responses.

  The embedding below translates `ReadServer::run`, `ReadServer::new` and
  `ReadServer::send_msg` into pure Lean functions.  Queues are modelled as
  lists (front = next element to pop).  Rust `Vec` push/pop on the pools is a
  LIFO stack; we keep the top of the stack at the head of the list.  The two
  `unwrap_or` chains in the Rust source evaluate their default arguments
  eagerly (ordinary function arguments), so the pool pop and the
  `DataBlock::new` / `DataBlockCache::new` constructor calls happen on every
  `ReadIntoBlock` / `Cache` request; the embedding reproduces this and counts
  constructor calls in the ghost fields `blockAllocs` / `cacheAllocs`.

  Responses are returned as an explicit output trace, in the order the
  corresponding `send_msg` calls occur in the source; this models the main
  loop under the assumption that the response queue has room (the bounded
  send with a full queue is modelled separately by `send_msg` below, for the
  claims about it).
-/

namespace Creek

/-- Modelled from the spec: decoder-reported, immutable file metadata
(channel count, total frame count, sample rate, decoder parameters).  The
type `FileInfo` itself is not in the provided sources; the server only reads
`num_channels`. -/
structure FileInfo (P : Type) where
  params : P
  num_frames : Nat
  num_channels : Nat
  sample_rate : Option Nat
deriving DecidableEq, Repr

/-- Modelled from the spec: a decoded audio buffer, one sample sequence per
channel, tagged with the actual decode start and the requested start.  The
type `DataBlock` itself is not in the provided sources; the server writes the
two tag fields and hands the block to `decode_into`. -/
structure DataBlock where
  channels : List (List Int)
  starting_frame_in_file : Nat
  wanted_start_smp : Nat
deriving DecidableEq, Repr

/-- Modelled from the spec: `DataBlock::new(num_channels)` constructs a fresh
block for the given channel count (constructor not in the provided sources). -/
def DataBlock.new (num_channels : Nat) : DataBlock :=
  { channels := List.replicate num_channels []
    starting_frame_in_file := 0
    wanted_start_smp := 0 }

/-- Modelled from the spec: an ordered sequence of blocks representing a
contiguous pre-decoded window starting at `wanted_start_smp`. -/
structure DataBlockCache where
  blocks : List DataBlock
  wanted_start_smp : Nat
deriving DecidableEq, Repr

/-- Modelled from the spec: the number of blocks in a freshly constructed
cache.  The spec leaves the count unspecified and no claim depends on it. -/
def cacheBlockCount : Nat := 2

/-- Modelled from the spec: `DataBlockCache::new(num_channels)` constructs a
fresh cache (constructor not in the provided sources). -/
def DataBlockCache.new (num_channels : Nat) : DataBlockCache :=
  { blocks := List.replicate cacheBlockCount (DataBlock.new num_channels)
    wanted_start_smp := 0 }

/-- Modelled from the spec: an opaque owned payload whose sole purpose is to
be dropped on the server thread. -/
structure HeapData where
  payload : Nat
deriving DecidableEq, Repr

/-- The decoder capability interface (the `Decoder` trait), as used by the
server loop: `decode_into` fills a block at the current position and advances,
`seek_to` repositions, `current_frame` reports the position.  A decoder is a
value of state type `σ` together with these operations; errors have type `E`. -/
structure Decoder (σ E : Type) where
  decode_into : σ → DataBlock → Except E (σ × DataBlock)
  seek_to : σ → Nat → Except E σ
  current_frame : σ → Nat

/-- Modelled from the spec: the five request message variants sent from the
client to the server (the enum itself is not in the provided sources; the
variants and their fields are exactly those matched in `ReadServer::run`). -/
inductive ClientToServerMsg where
  | ReadIntoBlock (block_index : Nat) (block : Option DataBlock)
      (starting_frame_in_file : Nat)
  | DisposeBlock (block : DataBlock)
  | SeekTo (frame : Nat)
  | Cache (cache_index : Nat) (cache : Option DataBlockCache)
      (starting_frame_in_file : Nat)
  | DisposeCache (cache : DataBlockCache)
deriving DecidableEq, Repr

/-- Modelled from the spec: the three response message variants sent from the
server to the client (constructed in `ReadServer::run`). -/
inductive ServerToClientMsg (E : Type) where
  | ReadIntoBlockRes (block_index : Nat) (block : DataBlock)
  | CacheRes (cache_index : Nat) (cache : DataBlockCache)
  | FatalError (e : E)
deriving DecidableEq, Repr

/-- The mutable state of `ReadServer` relevant to one loop iteration: the
decoder, the file info, the two reuse pools (top of stack at the head) and the
`run` flag.  `blockAllocs` / `cacheAllocs` are ghost counters incremented
exactly when the source calls `DataBlock::new` / `DataBlockCache::new`. -/
structure SrvCore (σ E P : Type) where
  dec : Decoder σ E
  decState : σ
  file_info : FileInfo P
  block_pool : List DataBlock
  cache_pool : List DataBlockCache
  run : Bool
  blockAllocs : Nat
  cacheAllocs : Nat

/-- The value of the working block obtained in the `ReadIntoBlock` arm:
`block.unwrap_or(self.block_pool.pop().unwrap_or(DataBlock::new(..)))`. -/
def obtainBlock (c : SrvCore σ E P) (blockOpt : Option DataBlock) : DataBlock :=
  blockOpt.getD ((c.block_pool.head?).getD (DataBlock.new c.file_info.num_channels))

/-- The value of the working cache obtained in the `Cache` arm. -/
def obtainCache (c : SrvCore σ E P) (cacheOpt : Option DataBlockCache) : DataBlockCache :=
  cacheOpt.getD ((c.cache_pool.head?).getD (DataBlockCache.new c.file_info.num_channels))

/-- The cache-fill `for` loop: decode into every block in order; on the first
failure stop (the remaining blocks keep their previous content, matching the
`break` out of the `for` loop) and report the error. -/
def fillBlocks (dec : Decoder σ E) (s : σ) :
    List DataBlock → σ × List DataBlock × Option E
  | [] => (s, [], none)
  | b :: rest =>
    match dec.decode_into s b with
    | .error e => (s, b :: rest, some e)
    | .ok (s1, b1) =>
      match fillBlocks dec s1 rest with
      | (s2, rest1, err) => (s2, b1 :: rest1, err)

/-- One arm of the `match msg` in `ReadServer::run`.  Returns the new core
state, the responses passed to `send_msg` (in order), and whether the arm
executed a `break` out of the message-drain `while` loop.  Note that in the
`Cache` arm a decode failure only breaks the inner `for` loop: the handler
still seeks back and, if that succeeds, sends `CacheRes` and does not break
the `while` loop. -/
def handleMsg (c : SrvCore σ E P) :
    ClientToServerMsg → SrvCore σ E P × List (ServerToClientMsg E) × Bool
  | .ReadIntoBlock block_index blockOpt starting_frame_in_file =>
    -- Eager evaluation of the unwrap_or chain: the pool is popped and a
    -- fresh block is constructed unconditionally.
    let block0 := obtainBlock c blockOpt
    let c1 := { c with block_pool := c.block_pool.tail
                       blockAllocs := c.blockAllocs + 1 }
    let block1 := { block0 with starting_frame_in_file := starting_frame_in_file
                                wanted_start_smp := starting_frame_in_file }
    match c1.dec.decode_into c1.decState block1 with
    | .ok (s1, b1) =>
      ({ c1 with decState := s1 },
       [.ReadIntoBlockRes block_index b1], false)
    | .error e =>
      ({ c1 with run := false }, [.FatalError e], true)
  | .DisposeBlock block =>
    ({ c with block_pool := block :: c.block_pool }, [], false)
  | .SeekTo frame =>
    match c.dec.seek_to c.decState frame with
    | .ok s1 => ({ c with decState := s1 }, [], false)
    | .error e => ({ c with run := false }, [.FatalError e], true)
  | .Cache cache_index cacheOpt starting_frame_in_file =>
    -- Eager evaluation, as in the ReadIntoBlock arm.
    let cache0 := obtainCache c cacheOpt
    let c1 := { c with cache_pool := c.cache_pool.tail
                       cacheAllocs := c.cacheAllocs + 1 }
    let cache1 := { cache0 with wanted_start_smp := starting_frame_in_file }
    let current_frame := c1.dec.current_frame c1.decState
    match c1.dec.seek_to c1.decState starting_frame_in_file with
    | .error e => ({ c1 with run := false }, [.FatalError e], true)
    | .ok s1 =>
      match fillBlocks c1.dec s1 cache1.blocks with
      | (s2, blocks1, none) =>
        let cache2 := { cache1 with blocks := blocks1 }
        match c1.dec.seek_to s2 current_frame with
        | .error e => ({ c1 with decState := s2, run := false },
                       [.FatalError e], true)
        | .ok s3 => ({ c1 with decState := s3 },
                     [.CacheRes cache_index cache2], false)
      | (s2, blocks1, some e) =>
        -- decode failed: FatalError is sent and run is cleared, but the
        -- `break` only exits the `for` loop; the seek back still runs.
        let cache2 := { cache1 with blocks := blocks1 }
        match c1.dec.seek_to s2 current_frame with
        | .error e2 => ({ c1 with decState := s2, run := false },
                        [.FatalError e, .FatalError e2], true)
        | .ok s3 => ({ c1 with decState := s3, run := false },
                     [.FatalError e, .CacheRes cache_index cache2], false)
  | .DisposeCache cache =>
    ({ c with cache_pool := cache :: c.cache_pool }, [], false)

/-- The message-drain `while let Ok(msg) = self.from_client_rx.pop()` loop.
Returns the final core state, the concatenated response trace, and the
requests left unpopped in the queue (nonempty only when an arm broke out of
the `while` loop). -/
def drain (c : SrvCore σ E P) :
    List ClientToServerMsg → SrvCore σ E P × List (ServerToClientMsg E) × List ClientToServerMsg
  | [] => (c, [], [])
  | m :: rest =>
    match handleMsg c m with
    | (c1, out, true) => (c1, out, rest)
    | (c1, out, false) =>
      match drain c1 rest with
      | (c2, out2, leftover) => (c2, out ++ out2, leftover)

/-- The state visible to the outer `while self.run` loop: the core plus the
two incoming queues (front = next element popped). -/
structure LoopState (σ E P : Type) where
  core : SrvCore σ E P
  from_client : List ClientToServerMsg
  close_signal : List (Option HeapData)

/-- One iteration of the `while self.run` body, in a static environment (no
concurrent pushes).  First the close-signal queue is polled: a popped value
(its heap data dropped) clears `run` and breaks out of the outer loop, which
skips the trailing sleep.  Otherwise the request queue is drained and the
iteration ends with the unconditional `std::thread::sleep`.  The returned
Bool records whether the iteration executed that sleep. -/
def iterate (st : LoopState σ E P) :
    LoopState σ E P × List (ServerToClientMsg E) × Bool :=
  match st.close_signal with
  | _ :: restC =>
    ({ st with close_signal := restC, core := { st.core with run := false } },
     [], false)
  | [] =>
    match drain st.core st.from_client with
    | (c1, out, leftover) =>
      ({ st with core := c1, from_client := leftover }, out, true)

/-- The `while self.run` loop, fuelled (in a static environment an idle server
spins forever; fuel bounds the number of iterations we observe).  Returns the
final state and the whole response trace. -/
def runLoop : Nat → LoopState σ E P → LoopState σ E P × List (ServerToClientMsg E)
  | 0, st => (st, [])
  | fuel + 1, st =>
    if st.core.run then
      match iterate st with
      | (st1, out, _) =>
        match runLoop fuel st1 with
        | (st2, out2) => (st2, out ++ out2)
    else (st, [])

/-- The environment of `ReadServer::send_msg`: the bounded response queue
(`is_full` holds when its length reaches the capacity), the close-signal
queue and the `run` flag. -/
structure SendEnv (E : Type) where
  to_client : List (ServerToClientMsg E)
  capacity : Nat
  close_signal : List (Option HeapData)
  run : Bool

/-- Outcome of `ReadServer::send_msg` in a static environment. -/
inductive SendOutcome where
  | sentOk
  | droppedOnClose
  | blockedForever
deriving DecidableEq, Repr

/-- `ReadServer::send_msg` in a static environment (no concurrent pops by the
consumer, no concurrent pushes of close signals).  If the response queue has
room, the wait loop exits at once and the push succeeds.  If it is full and a
close signal is available, the signal is popped (heap data dropped), `run` is
cleared and the wait loop breaks; the final push then fails on the still-full
queue and the message is discarded.  If it is full and no close signal ever
arrives, the wait loop sleeps forever. -/
def send_msg (st : SendEnv E) (msg : ServerToClientMsg E) : SendEnv E × SendOutcome :=
  if st.to_client.length < st.capacity then
    ({ st with to_client := st.to_client ++ [msg] }, .sentOk)
  else
    match st.close_signal with
    | _ :: rest => ({ st with close_signal := rest, run := false }, .droppedOnClose)
    | [] => (st, .blockedForever)

/-- What the worker closure spawned by `ReadServer::new` does up to entering
the loop: the messages it pushes into the capacity-one handshake channel, and
the initial server state when it enters the loop (`none` when `D::new`
failed and the thread exits). -/
structure WorkerStart (σ E P OpenE : Type) where
  handshakePushes : List (Except OpenE (FileInfo P))
  serverInit : Option (SrvCore σ E P)

/-- The initial server state built in `ReadServer::new` on a successful open:
empty pools, `run = true`. -/
def initCore (dec : Decoder σ E) (d : σ) (fi : FileInfo P) : SrvCore σ E P :=
  { dec := dec, decState := d, file_info := fi
    block_pool := [], cache_pool := []
    run := true, blockAllocs := 0, cacheAllocs := 0 }

/-- The worker closure of `ReadServer::new`, as a function of the outcome of
`D::new(file, start_frame)`: on success push `Ok(file_info.clone())` and run
the loop from `initCore`; on failure push `Err(e)` and exit. -/
def workerStart (dec : Decoder σ E)
    (openResult : Except OpenE (σ × FileInfo P)) : WorkerStart σ E P OpenE :=
  match openResult with
  | .ok (d, fi) => { handshakePushes := [.ok fi]
                     serverInit := some (initCore dec d fi) }
  | .error e => { handshakePushes := [.error e], serverInit := none }

/-- The value returned by the constructing call `ReadServer::new`: it polls
the handshake channel until a value arrives and returns it.  In the static
model this is the first pushed value; `none` models blocking forever when the
worker never pushes. -/
def ReadServer.new (dec : Decoder σ E)
    (openResult : Except OpenE (σ × FileInfo P)) : Option (Except OpenE (FileInfo P)) :=
  (workerStart dec openResult).handshakePushes.head?

/-- Declarative mirror for the FIFO claim: the per-request response batches of
the serviced prefix of the queue, in arrival order. -/
def drainBatches (c : SrvCore σ E P) :
    List ClientToServerMsg → List (List (ServerToClientMsg E))
  | [] => []
  | m :: rest =>
    match handleMsg c m with
    | (_, out, true) => [out]
    | (c1, out, false) => out :: drainBatches c1 rest

/-- Declarative mirror for the FIFO claim: how many requests of the queue are
serviced before the drain loop stops. -/
def servicedCount (c : SrvCore σ E P) : List ClientToServerMsg → Nat
  | [] => 0
  | m :: rest =>
    match handleMsg c m with
    | (_, _, true) => 1
    | (c1, _, false) => servicedCount c1 rest + 1

/-- A concrete decoder on state `Nat` (the current frame) whose operations
always succeed: decoding advances by one frame and returns the block
unchanged, seeking moves to the requested frame. -/
def okDecoder : Decoder Nat Nat :=
  { decode_into := fun s b => .ok (s + 1, b)
    seek_to := fun _ f => .ok f
    current_frame := fun s => s }

/-- A concrete decoder whose seeks succeed but whose decode always fails
with error 0. -/
def failDecoder : Decoder Nat Nat :=
  { decode_into := fun _ _ => .error 0
    seek_to := fun _ f => .ok f
    current_frame := fun s => s }

/-- Concrete file info for witnesses: 2 channels, 10000 frames. -/
def fiTest : FileInfo Unit :=
  { params := (), num_frames := 10000, num_channels := 2, sample_rate := some 44100 }

/-- Concrete server core for witnesses and counterexamples. -/
def mkCore (dec : Decoder Nat Nat) (pos : Nat) (bp : List DataBlock)
    (cp : List DataBlockCache) : SrvCore Nat Nat Unit :=
  { dec := dec, decState := pos, file_info := fiTest, block_pool := bp
    cache_pool := cp, run := true, blockAllocs := 0, cacheAllocs := 0 }

/-- A concrete block. -/
def blockA : DataBlock :=
  { channels := [[1, 2], [3, 4]], starting_frame_in_file := 0, wanted_start_smp := 0 }

/-- Another concrete block, distinct from blockA. -/
def blockB : DataBlock :=
  { channels := [[5], [6]], starting_frame_in_file := 0, wanted_start_smp := 0 }

/-- A concrete one-block cache. -/
def cacheA : DataBlockCache := { blocks := [blockA], wanted_start_smp := 0 }

/-- C1: evaluation at the failing input.  With a decoder whose seeks succeed
and whose decode always fails, a Cache request whose fill fails emits
FatalError and then CacheRes (the break after the failed decode only exits
the fill for loop, so the handler still seeks back and sends the cache), and
a further queued request is still serviced, emitting a second FatalError. -/
theorem creek_C1_fatal_error_not_terminal :
    (drain (mkCore failDecoder 5 [] [])
        [ClientToServerMsg.Cache 7 (some cacheA) 9,
         ClientToServerMsg.ReadIntoBlock 3 none 2]).2.1 =
      [ServerToClientMsg.FatalError 0,
       ServerToClientMsg.CacheRes 7 { blocks := [blockA], wanted_start_smp := 9 },
       ServerToClientMsg.FatalError 0] := by decide

/-- C7: evaluation at the failing input.  After DisposeBlock blockA followed
by ReadIntoBlock{block: None}, the block used for the fill is the disposed
blockA itself (LIFO reuse, the pool is emptied again), but DataBlock::new is
nevertheless invoked once (ghost counter blockAllocs), because unwrap_or
evaluates its default argument eagerly. -/
theorem creek_C7_pool_reuse_still_constructs :
    (drain (mkCore okDecoder 0 [] [])
        [ClientToServerMsg.DisposeBlock blockA,
         ClientToServerMsg.ReadIntoBlock 0 none 5]).2.1 =
      [ServerToClientMsg.ReadIntoBlockRes 0
        { blockA with starting_frame_in_file := 5, wanted_start_smp := 5 }] ∧
    (drain (mkCore okDecoder 0 [] [])
        [ClientToServerMsg.DisposeBlock blockA,
         ClientToServerMsg.ReadIntoBlock 0 none 5]).1.block_pool = [] ∧
    (drain (mkCore okDecoder 0 [] [])
        [ClientToServerMsg.DisposeBlock blockA,
         ClientToServerMsg.ReadIntoBlock 0 none 5]).1.blockAllocs = 1 := by decide

/-- C10: evaluation at the failing input.  A ReadIntoBlock request that
supplies its own block and whose decode fails emits only FatalError and
breaks the drain loop, and the working block is dropped; but the pool still
loses its top element blockB, because the pool pop in the unwrap_or chain is
evaluated eagerly even though the request supplied a block. -/
theorem creek_C10_failed_read_pops_pool :
    (handleMsg (mkCore failDecoder 0 [blockB] [])
        (ClientToServerMsg.ReadIntoBlock 1 (some blockA) 4)).2.1 =
      [ServerToClientMsg.FatalError 0] ∧
    (handleMsg (mkCore failDecoder 0 [blockB] [])
        (ClientToServerMsg.ReadIntoBlock 1 (some blockA) 4)).2.2 = true ∧
    (handleMsg (mkCore failDecoder 0 [blockB] [])
        (ClientToServerMsg.ReadIntoBlock 1 (some blockA) 4)).1.run = false ∧
    (handleMsg (mkCore failDecoder 0 [blockB] [])
        (ClientToServerMsg.ReadIntoBlock 1 (some blockA) 4)).1.block_pool = [] := by decide

/-- Concrete loop state for the C8 counterexample: one queued request, no
close signal. -/
def stC8 : LoopState Nat Nat Unit :=
  { core := mkCore okDecoder 0 [] []
    from_client := [ClientToServerMsg.DisposeBlock blockA]
    close_signal := [] }

/-- C8 counterexample: an iteration with no close signal that services a
request (the queue empties and the disposed block lands in the pool) still
executes the trailing sleep, refuting the claim that an iteration which
serviced at least one request proceeds to the next poll without sleeping. -/
theorem creek_C8_counterexample :
    (iterate stC8).2.2 = true ∧
    (iterate stC8).1.from_client = [] ∧
    (iterate stC8).1.core.block_pool = [blockA] := by decide

/-- C8 amended: an iteration of the dispatch loop executes the trailing sleep
exactly when no close signal was observed at the top poll; whether requests
were serviced in the iteration has no effect on the sleep. -/
theorem creek_C8_sleep_iff_no_close (st : LoopState σ E P) :
    (iterate st).2.2 = st.close_signal.isEmpty := by
  cases h : st.close_signal with
  | nil =>
    rcases hd : drain st.core st.from_client with ⟨c1, out, leftover⟩
    simp [iterate, h, hd]
  | cons a rest => simp [iterate, h]

/-- C2: servicing ReadIntoBlock{block_index=i, block, starting_frame_in_file=F}
with F within file bounds and a decoder whose decode succeeds (and which, per
the decoder contract, fills samples without rewriting the two tag fields)
yields exactly the response ReadIntoBlockRes{block_index=i, block=b1} with
b1.starting_frame_in_file = F and b1.wanted_start_smp = F, and does not break
the drain loop. -/
theorem creek_C2_read_round_trip (c : SrvCore σ E P) (i F : Nat)
    (blockOpt : Option DataBlock) (s1 : σ) (b1 : DataBlock)
    (_hF : F < c.file_info.num_frames)
    (hpres : ∀ s b s2 b2, c.dec.decode_into s b = .ok (s2, b2) →
      b2.starting_frame_in_file = b.starting_frame_in_file ∧
      b2.wanted_start_smp = b.wanted_start_smp)
    (hdec : c.dec.decode_into c.decState
      { obtainBlock c blockOpt with
          starting_frame_in_file := F, wanted_start_smp := F } = .ok (s1, b1)) :
    (handleMsg c (ClientToServerMsg.ReadIntoBlock i blockOpt F)).2.1 =
      [ServerToClientMsg.ReadIntoBlockRes i b1] ∧
    (handleMsg c (ClientToServerMsg.ReadIntoBlock i blockOpt F)).2.2 = false ∧
    b1.starting_frame_in_file = F ∧
    b1.wanted_start_smp = F := by
  have hp := hpres _ _ _ _ hdec
  simp only [handleMsg]
  rw [hdec]
  exact ⟨rfl, rfl, hp.1, hp.2⟩

/-- The block obtained and returned in the C2 witness run. -/
def blockW : DataBlock :=
  { channels := List.replicate 2 ([] : List Int)
    starting_frame_in_file := 3
    wanted_start_smp := 3 }

/-- C2 witness: concrete run of the theorem with okDecoder at frame 3. -/
theorem creek_C2_witness :
    (handleMsg (mkCore okDecoder 0 [] [])
        (ClientToServerMsg.ReadIntoBlock 0 none 3)).2.1 =
      [ServerToClientMsg.ReadIntoBlockRes 0 blockW] ∧
    blockW.starting_frame_in_file = 3 ∧
    blockW.wanted_start_smp = 3 := by
  have h := creek_C2_read_round_trip (mkCore okDecoder 0 [] []) 0 3 none 1 blockW
    (by decide)
    (by
      intro s b s2 b2 hsb
      simp only [mkCore, okDecoder] at hsb
      cases hsb
      exact ⟨rfl, rfl⟩)
    (by rfl)
  exact ⟨h.1, h.2.2.1, h.2.2.2⟩

/-- C3: the open handshake.  The worker closure pushes exactly one value into
the capacity-one handshake channel (so the push never fails), that value is
exactly the outcome of Decoder open (Ok file_info on success, Err e on
failure), the constructing call returns it, and the worker enters the loop
with the fresh running state exactly on success (on failure serverInit is
none: the thread exits without running the loop and produces no messages). -/
theorem creek_C3_open_handshake (dec : Decoder σ E)
    (r : Except OpenE (σ × FileInfo P)) :
    (workerStart dec r).handshakePushes = [r.map Prod.snd] ∧
    ReadServer.new dec r = some (r.map Prod.snd) ∧
    (workerStart (σ := σ) (E := E) dec r).serverInit =
      r.toOption.map (fun p => initCore dec p.1 p.2) := by
  cases r <;>
    simp [workerStart, ReadServer.new, Except.map, Except.toOption]

/-- C4: servicing Cache{cache_index, cache, starting_frame_in_file=W} on a
decoder at position P, when the seek to W, every decode of the cache blocks
and the seek back all succeed, leaves the decoder position equal to P again.
The hypothesis hseek is the decoder contract that a successful seek_to f
repositions the decoder to f. -/
theorem creek_C4_cache_restores_position (c : SrvCore σ E P) (ci W : Nat)
    (cacheOpt : Option DataBlockCache) (s1 s2 s3 : σ) (blocks1 : List DataBlock)
    (hseek : ∀ s f s4, c.dec.seek_to s f = .ok s4 → c.dec.current_frame s4 = f)
    (h1 : c.dec.seek_to c.decState W = .ok s1)
    (h2 : fillBlocks c.dec s1 (obtainCache c cacheOpt).blocks = (s2, blocks1, none))
    (h3 : c.dec.seek_to s2 (c.dec.current_frame c.decState) = .ok s3) :
    c.dec.current_frame
        ((handleMsg c (ClientToServerMsg.Cache ci cacheOpt W)).1.decState) =
      c.dec.current_frame c.decState := by
  simp only [handleMsg]
  rw [h1]
  dsimp only
  rw [h2]
  dsimp only
  rw [h3]
  exact hseek _ _ _ h3

/-- C4 witness: okDecoder at position 5, caching a one-block window at 9;
after the request the decoder position is 5 again. -/
theorem creek_C4_witness :
    okDecoder.current_frame
        ((handleMsg (mkCore okDecoder 5 [] [])
            (ClientToServerMsg.Cache 1 (some cacheA) 9)).1.decState) = 5 := by
  have h := creek_C4_cache_restores_position (mkCore okDecoder 5 [] []) 1 9
    (some cacheA) 9 10 5 [blockA]
    (by
      intro s f s4 hs
      simp only [mkCore, okDecoder] at hs ⊢
      cases hs
      rfl)
    (by rfl) (by rfl) (by rfl)
  exact h

/-- Helper: a loop whose run flag is cleared does nothing. -/
theorem runLoop_stopped (fuel : Nat) (st : LoopState σ E P)
    (h : st.core.run = false) : runLoop fuel st = (st, []) := by
  cases fuel <;> simp [runLoop, h]

/-- C5: close-signal priority.  If a value is present on the close-signal
queue when the loop polls it, the iteration clears run, skips the sleep,
emits no response and leaves the request queue untouched; and the whole
remaining run of the loop emits no response and services no queued request. -/
theorem creek_C5_close_priority (st : LoopState σ E P) (fuel : Nat)
    (hclose : st.close_signal ≠ []) :
    (iterate st).1.core.run = false ∧
    (iterate st).2.1 = [] ∧
    (iterate st).2.2 = false ∧
    (iterate st).1.from_client = st.from_client ∧
    (runLoop fuel st).2 = [] ∧
    (runLoop fuel st).1.from_client = st.from_client := by
  cases hc : st.close_signal with
  | nil => exact absurd hc hclose
  | cons a rest =>
    refine ⟨by simp [iterate, hc], by simp [iterate, hc], by simp [iterate, hc],
      by simp [iterate, hc], ?_⟩
    cases fuel with
    | zero => simp [runLoop]
    | succ n =>
      by_cases hr : st.core.run
      · have hstop : (iterate st).1.core.run = false := by simp [iterate, hc]
        rcases hit : iterate st with ⟨st1, out, slept⟩
        have h1 : runLoop n st1 = (st1, []) := by
          apply runLoop_stopped
          have hst1 : st1 = (iterate st).1 := by rw [hit]
          rw [hst1]
          exact hstop
        have hout : out = [] := by
          have : (iterate st).2.1 = [] := by simp [iterate, hc]
          rw [hit] at this
          exact this
        have hfc : st1.from_client = st.from_client := by
          have : (iterate st).1.from_client = st.from_client := by simp [iterate, hc]
          rw [hit] at this
          exact this
        simp [runLoop, hr, hit, h1, hout, hfc]
      · simp [runLoop, hr]

/-- Concrete loop state for the C5 witness: a close signal and a queued
request are both present. -/
def stC5 : LoopState Nat Nat Unit :=
  { core := mkCore okDecoder 0 [] []
    from_client := [ClientToServerMsg.SeekTo 3]
    close_signal := [some { payload := 0 }] }

/-- C5 witness: with a close signal and a queued SeekTo pending, the loop
emits nothing and the request stays unserviced. -/
theorem creek_C5_witness :
    (iterate stC5).2.1 = [] ∧
    (runLoop 3 stC5).2 = [] ∧
    (runLoop 3 stC5).1.from_client = [ClientToServerMsg.SeekTo 3] := by
  have h := creek_C5_close_priority stC5 3 (by decide)
  exact ⟨h.2.1, h.2.2.2.2.1, h.2.2.2.2.2⟩

/-- C6: FIFO service order.  The drain loop services a prefix of the request
queue in arrival order (the unserviced remainder is a drop of the original
queue), and the emitted response trace is the concatenation, in service
order, of the per-request response batches. -/
theorem creek_C6_fifo_order (c : SrvCore σ E P) (q : List ClientToServerMsg) :
    (drain c q).2.1 = (drainBatches c q).flatten ∧
    (drain c q).2.2 = q.drop (servicedCount c q) ∧
    servicedCount c q ≤ q.length := by
  induction q generalizing c with
  | nil => simp [drain, drainBatches, servicedCount]
  | cons m rest ih =>
    rcases hh : handleMsg c m with ⟨c1, out, brk⟩
    cases brk with
    | true => simp [drain, drainBatches, servicedCount, hh]
    | false =>
      rcases hd : drain c1 rest with ⟨c2, out2, leftover⟩
      rcases ih c1 with ⟨ih1, ih2, ih3⟩
      rw [hd] at ih1 ih2
      simp [drain, drainBatches, servicedCount, hh, hd, ih1, ih2]
      exact ⟨ih1, ih2, ih3⟩

/-- C9: backpressure-aware send under a full queue and an available close
signal.  The wait loop observes the close signal, clears run and exits with
the queue still full; the final push then fails and the message (for example
a FatalError) is silently discarded: the response queue is unchanged. -/
theorem creek_C9_send_discards_on_close (st : SendEnv E)
    (msg : ServerToClientMsg E)
    (hfull : st.to_client.length = st.capacity)
    (hclose : st.close_signal ≠ []) :
    (send_msg st msg).2 = SendOutcome.droppedOnClose ∧
    (send_msg st msg).1.to_client = st.to_client ∧
    (send_msg st msg).1.run = false ∧
    (send_msg st msg).1.to_client.length = st.capacity := by
  cases hc : st.close_signal with
  | nil => exact absurd hc hclose
  | cons a rest => simp [send_msg, hfull, hc]

/-- Concrete send environment for the C9 witness: capacity-one response queue
already holding a message, close signal available. -/
def stC9 : SendEnv Nat :=
  { to_client := [ServerToClientMsg.FatalError 7]
    capacity := 1
    close_signal := [none]
    run := true }

/-- C9 witness: sending a FatalError into the full queue while a close signal
is available discards the message and leaves the queue unchanged. -/
theorem creek_C9_witness :
    (send_msg stC9 (ServerToClientMsg.FatalError 9)).2 =
      SendOutcome.droppedOnClose ∧
    (send_msg stC9 (ServerToClientMsg.FatalError 9)).1.to_client =
      [ServerToClientMsg.FatalError 7] := by
  have h := creek_C9_send_discards_on_close stC9
    (ServerToClientMsg.FatalError 9) (by decide) (by decide)
  exact ⟨h.1, h.2.1⟩

end Creek
